import Mathlib

/-!
Verification development for the ThreatAI front-end JavaScript
(src/static/js/app.js, the query page, and src/unnamed/part_001, the chat
page script).  The browser-side code is shallowly embedded: DOM-mutating
functions become pure state transformers on explicit state records, fetch
calls become outcome parameters supplied by the environment, and the HTML
strings built by template literals are reproduced as string concatenation
(with the insignificant indentation whitespace of the literals normalized
away).  Values that the browser supplies nondeterministically (Date.now
based message ids, locale-formatted times) are taken as parameters.
JS floating point numbers appearing only through toFixed formatting
(confidence, evidence score) are modeled in thousandths as naturals.
-/

namespace ThreatAI

/-- Character 34, the double quote, written via its code so that escape
processing of the model is explicit. -/
def quoteC : Char := Char.ofNat 34

/-- Character 39, the single quote. -/
def aposC : Char := Char.ofNat 39

/-- Models JS String.prototype.trim for the ASCII whitespace that the
sources can produce (space, tab, newline, carriage return). -/
def isWS (c : Char) : Bool :=
  c == ' ' || c == '\t' || c == '\n' || c == '\r'

/-- Models JS s.trim(). -/
def jsTrim (s : String) : String :=
  String.mk (((s.data.dropWhile isWS).reverse.dropWhile isWS).reverse)

/-- Models JS s.substring(0, n), which for n less than the length takes the
first n characters and otherwise returns s whole. -/
def jsSubstringTo (s : String) (n : Nat) : String :=
  String.mk (s.data.take n)

/-- Models the JS idiom v or-else d on an optional string: undefined and
the empty string are falsy, so both fall back to the default. -/
def jsOrString (v : Option String) (d : String) : String :=
  match v with
  | none => d
  | some s => if s = "" then d else s

/-- An evidence item as supplied by the backend response: optional actor,
source, text, similarity score.  The score only reaches the page through
toFixed(3), so it is carried in thousandths. -/
structure EvidenceItem where
  actor : Option String
  source : String
  text : String
  score : Nat
deriving DecidableEq

/-- The metadata bag attached to an assistant message.  Confidence is in
thousandths (JS float abstracted). -/
structure ChatMetadata where
  evidence : List EvidenceItem
  confidence : Option Nat
  model : Option String
  trace_id : Option String
  source_count : Option Nat
deriving DecidableEq

/-- The JS default parameter metadata = the empty object. -/
def emptyMetadata : ChatMetadata :=
  { evidence := [], confidence := none, model := none, trace_id := none,
    source_count := none }

/-- One rendered child of the messages-container div on the chat page. -/
inductive TranscriptItem where
  | user (content : String) (timestamp : Option String)
  | assistant (messageId : String) (content : String)
      (metadata : ChatMetadata) (timestamp : Option String)
  | errorMsg (text : String)
  | typing
deriving DecidableEq

/-- A value of the window.messageMetadata registry: the content and
metadata snapshot stored for a rendered assistant message. -/
structure RegistryEntry where
  content : String
  metadata : ChatMetadata
deriving DecidableEq

/-- The mutable browser state that the chat script (src/unnamed/part_001)
reads and writes: the two global variables, the relevant DOM surfaces, the
window.messageMetadata registry, and the observable effect channels
(alerts, file downloads, sidebar list reloads). -/
structure ChatState where
  currentConversationId : Option String
  isWaitingForResponse : Bool
  inputValue : String
  welcomeVisible : Bool
  messagesVisible : Bool
  titleH2 : String
  transcript : List TranscriptItem
  registry : List (String × RegistryEntry)
  alerts : List String
  downloads : List String
  sidebarRefreshes : Nat
  sendBtnDisabled : Bool
deriving DecidableEq

/-- Models the JS object assignment messageMetadata[k] = v: an existing
key keeps its position and gets the new value, a new key is appended. -/
def registrySet (reg : List (String × RegistryEntry)) (k : String)
    (v : RegistryEntry) : List (String × RegistryEntry) :=
  if (reg.lookup k).isSome then
    reg.map (fun p => if p.1 = k then (k, v) else p)
  else reg ++ [(k, v)]

/-- Number of registry pairs carrying the key k. -/
def countKey (k : String) (reg : List (String × RegistryEntry)) : Nat :=
  (reg.filter (fun p => p.1 == k)).length

/-- Whether a transcript item is the typing indicator. -/
def isTyping : TranscriptItem → Bool
  | TranscriptItem.typing => true
  | _ => false

/-- Models removeTypingIndicator: querySelector finds the first
typing-message element in document order and removes it. -/
def removeFirstTyping : List TranscriptItem → List TranscriptItem
  | [] => []
  | TranscriptItem.typing :: rest => rest
  | it :: rest => it :: removeFirstTyping rest

/- HTML escaping.  app.js declares escapeHtml twice; by JS function
hoisting the later, map-based declaration (app.js line 453) is the one in
effect, replacing all five special characters.  The chat page
(part_001 line 478) instead assigns textContent on a detached div and
reads back innerHTML, which the browser serializes escaping only the
ampersand and the angle brackets; quotes pass through untouched. -/

/-- The five entity spellings, as character lists. -/
def ampEsc : List Char := ['&', 'a', 'm', 'p', ';']

/-- Entity for the less-than sign. -/
def ltEsc : List Char := ['&', 'l', 't', ';']

/-- Entity for the greater-than sign. -/
def gtEsc : List Char := ['&', 'g', 't', ';']

/-- Entity for the double quote. -/
def quotEsc : List Char := ['&', 'q', 'u', 'o', 't', ';']

/-- The numeric entity for the single quote used by app.js. -/
def aposEsc : List Char := ['&', '#', '0', '3', '9', ';']

/-- Per-character replacement of the map-based escapeHtml of app.js. -/
def escCharApp (c : Char) : List Char :=
  if c = '&' then ampEsc
  else if c = '<' then ltEsc
  else if c = '>' then gtEsc
  else if c = quoteC then quotEsc
  else if c = aposC then aposEsc
  else [c]

/-- The map-based escapeHtml of app.js over a character list. -/
def escListApp : List Char → List Char
  | [] => []
  | c :: rest => escCharApp c ++ escListApp rest

/-- Per-character effect of the DOM text-node serialization used by the
escapeHtml of the chat page: only the ampersand and angle brackets are
replaced. -/
def escCharChat (c : Char) : List Char :=
  if c = '&' then ampEsc
  else if c = '<' then ltEsc
  else if c = '>' then gtEsc
  else [c]

/-- The DOM-based escapeHtml of the chat page over a character list. -/
def escListChat : List Char → List Char
  | [] => []
  | c :: rest => escCharChat c ++ escListChat rest

/-- A character list is in fully escaped form when it is a concatenation
of the five entities and of single characters that are none of the five
specials.  Such a list carries no raw special character outside intended
escape markup. -/
inductive EscapedForm5 : List Char → Prop where
  | nil : EscapedForm5 []
  | amp (l : List Char) : EscapedForm5 l → EscapedForm5 (ampEsc ++ l)
  | lt (l : List Char) : EscapedForm5 l → EscapedForm5 (ltEsc ++ l)
  | gt (l : List Char) : EscapedForm5 l → EscapedForm5 (gtEsc ++ l)
  | quo (l : List Char) : EscapedForm5 l → EscapedForm5 (quotEsc ++ l)
  | apo (l : List Char) : EscapedForm5 l → EscapedForm5 (aposEsc ++ l)
  | other (c : Char) (l : List Char) : c ≠ '&' → c ≠ '<' → c ≠ '>' →
      c ≠ quoteC → c ≠ aposC → EscapedForm5 l → EscapedForm5 (c :: l)

/-- The weaker escaped form that the chat page escapeHtml achieves: a
concatenation of the three entities and of characters other than the
ampersand and the angle brackets; quotes may occur raw. -/
inductive EscapedForm3 : List Char → Prop where
  | nil : EscapedForm3 []
  | amp (l : List Char) : EscapedForm3 l → EscapedForm3 (ampEsc ++ l)
  | lt (l : List Char) : EscapedForm3 l → EscapedForm3 (ltEsc ++ l)
  | gt (l : List Char) : EscapedForm3 l → EscapedForm3 (gtEsc ++ l)
  | other (c : Char) (l : List Char) : c ≠ '&' → c ≠ '<' → c ≠ '>' →
      EscapedForm3 l → EscapedForm3 (c :: l)

/-- Boolean list-prefix test used by the substring occurrence check. -/
def isPre : List Char → List Char → Bool
  | [], _ => true
  | _ :: _, [] => false
  | a :: as, b :: bs => a == b && isPre as bs

/-- Boolean substring occurrence test on character lists. -/
def subOccurs : List Char → List Char → Bool
  | n, [] => isPre n []
  | n, c :: t => isPre n (c :: t) || subOccurs n t

namespace App

/-- escapeHtml as effective in app.js: the map-based declaration at
line 453 replaces every ampersand, angle bracket and quote character by
its entity. -/
def escapeHtml (s : String) : String := String.mk (escListApp s.data)

/-- Models (confidence * 100).toFixed(1) for a confidence carried in
thousandths: one-decimal percent string. -/
def confidencePercentStr (confidence : Nat) : String :=
  toString (confidence / 10) ++ "." ++ toString (confidence % 10)

/-- Zero-pads a sub-thousand natural to three digits. -/
def pad3 (n : Nat) : String :=
  if n < 10 then "00" ++ toString n
  else if n < 100 then "0" ++ toString n
  else toString n

/-- Models score.toFixed(3) for a score carried in thousandths. -/
def scoreStr (score : Nat) : String :=
  toString (score / 1000) ++ "." ++ pad3 (score % 1000)

/-- The query-result envelope of a 200 response of POST /api/query.
A missing confidence is already collapsed to 0 by the or-zero read in
displayResults, so the field is plain. -/
structure QueryResult where
  query : String
  answer : String
  confidence : Nat
  evidence : List EvidenceItem
  model : String
  source_count : Nat
  timestamp : String
  trace_id : Option String
deriving DecidableEq

/-- Index-aware map used to embed the evidence.forEach((e, i) => ...)
loop of displayResults. -/
def mapIdxFrom (f : Nat → EvidenceItem → String) :
    Nat → List EvidenceItem → List String
  | _, [] => []
  | i, e :: rest => f i e :: mapIdxFrom f (i + 1) rest

/-- One evidence item of the query page result card
(app.js displayResults, lines 170 to 178). -/
def evidenceItemHtml (i : Nat) (e : EvidenceItem) : String :=
  "<div class=\"evidence-item\"><div class=\"evidence-meta\"><span class=\"evidence-source\">["
  ++ toString (i + 1) ++ "] "
  ++ escapeHtml (jsOrString e.actor "Unknown") ++ " • " ++ escapeHtml e.source
  ++ "</span><span class=\"evidence-score\">Score: " ++ scoreStr e.score
  ++ "</span></div><div class=\"evidence-text\">" ++ escapeHtml e.text
  ++ "</div></div>"

/-- The evidence section of the query page result card: the badge shows
the full evidence count and every item is rendered. -/
def evidenceSectionHtml (evidence : List EvidenceItem) : String :=
  if evidence.length > 0 then
    "<div class=\"evidence-section\"><div class=\"evidence-header\"><span>📚 Evidence Sources</span><span class=\"evidence-count\">"
    ++ toString evidence.length
    ++ "</span></div><div class=\"evidence-list\">"
    ++ String.join (mapIdxFrom evidenceItemHtml 0 evidence)
    ++ "</div></div>"
  else ""

/-- The metadata section of displayResults (app.js lines 184 to 203).
The model string goes through escapeHtml; the trace id does not: its
first eight characters are concatenated into the markup raw.  The
locale-formatted timestamp is the timeStr parameter. -/
def metadataHtml (r : QueryResult) (timeStr : String) : String :=
  "<div class=\"metadata\"><div class=\"metadata-item\"><span class=\"metadata-label\">Model</span><span class=\"metadata-value\">"
  ++ escapeHtml r.model
  ++ "</span></div><div class=\"metadata-item\"><span class=\"metadata-label\">Sources</span><span class=\"metadata-value\">"
  ++ toString r.source_count
  ++ "</span></div><div class=\"metadata-item\"><span class=\"metadata-label\">Timestamp</span><span class=\"metadata-value\">"
  ++ timeStr
  ++ "</span></div>"
  ++ (match r.trace_id with
      | some tid =>
        if tid = "" then ""
        else
          "<div class=\"metadata-item\"><span class=\"metadata-label\">Trace ID</span><span class=\"metadata-value\">"
          ++ jsSubstringTo tid 8 ++ "</span></div>"
      | none => "")
  ++ "</div>"

/-- The full result card built by displayResults. -/
def resultCardHtml (r : QueryResult) (timeStr : String) : String :=
  "<div class=\"result-card\"><div class=\"result-header\"><div class=\"result-query\">"
  ++ escapeHtml r.query
  ++ "</div><div class=\"confidence-badge\"><span>Confidence</span><div class=\"confidence-bar\"><div class=\"confidence-fill\" style=\"width: "
  ++ confidencePercentStr r.confidence
  ++ "%\"></div></div><span>" ++ confidencePercentStr r.confidence
  ++ "%</span></div></div><div class=\"result-answer\">"
  ++ escapeHtml r.answer ++ "</div>"
  ++ evidenceSectionHtml r.evidence
  ++ metadataHtml r timeStr
  ++ "</div>"

/-- The error block rendered by showError. -/
def showErrorHtml (message : String) : String :=
  "<div class=\"error\"><span class=\"error-icon\">⚠️</span><div><strong>Error:</strong> "
  ++ escapeHtml message ++ "</div></div>"

/-- The loading block shown while the query call is pending. -/
def loadingHtml : String :=
  "<div class=\"loading\"><div class=\"spinner\"></div><div class=\"loading-text\">🔍 Analyzing threat intelligence...</div><div class=\"loading-text\">Searching vector database and generating insights</div></div>"

/-- The static export button block appended by addExportButtons. -/
def exportButtonsHtml : String :=
  "<div id=\"export-buttons\" class=\"export-buttons\"><button onclick=\"exportPDF()\" class=\"export-btn export-btn-pdf\">📄 Export as PDF</button><button onclick=\"exportCSV()\" class=\"export-btn export-btn-csv\">📊 Export as CSV</button></div>"

/-- The browser state the query page script reads and writes. -/
structure QueryPageState where
  queryInput : String
  resultsHtml : String
  lastResult : Option QueryResult
  submitDisabled : Bool
  feedbackVisible : Bool
  centerVisible : Bool
  resultsAreaVisible : Bool
deriving DecidableEq

/-- The outcome of the POST /api/query call as seen by submitQuery:
a 200 body, a non-200 body with an optional error field, or a rejection
of fetch or of json parsing. -/
inductive QueryOutcome where
  | ok (r : QueryResult)
  | err (error : Option String)
  | reject (message : String)
deriving DecidableEq

/-- displayResults (app.js lines 134 to 211): records the last result,
hides the center container, shows the results area and replaces the
results markup with the result card; addExportButtons then appends the
export button block. -/
def displayResults (r : QueryResult) (timeStr : String)
    (st : QueryPageState) : QueryPageState :=
  { st with lastResult := some r,
            centerVisible := false,
            resultsAreaVisible := true,
            resultsHtml := resultCardHtml r timeStr ++ exportButtonsHtml }

/-- submitQuery (app.js lines 88 to 129).  The trimmed empty input is
rejected locally with showError and no call is made.  Otherwise the
button is disabled, the loading block shown, one call issued, and the
outcome rendered; the finally clause re-enables the button.  The second
component reports whether a network call was issued. -/
def submitQuery (o : QueryOutcome) (timeStr : String)
    (st : QueryPageState) : QueryPageState × Bool :=
  let query := jsTrim st.queryInput
  if query = "" then
    ({ st with resultsHtml :=
        showErrorHtml "Please enter a threat intelligence query" }, false)
  else
    let st1 := { st with submitDisabled := true, resultsHtml := loadingHtml }
    match o with
    | QueryOutcome.ok r =>
      let st2 := displayResults r timeStr st1
      ({ st2 with feedbackVisible := true, submitDisabled := false }, true)
    | QueryOutcome.err e =>
      ({ st1 with
          resultsHtml := showErrorHtml (jsOrString e "Unknown error occurred"),
          submitDisabled := false }, true)
    | QueryOutcome.reject m =>
      ({ st1 with
          resultsHtml := showErrorHtml ("Connection error: " ++ m),
          submitDisabled := false }, true)

end App

namespace Chat

/-- escapeHtml of the chat page (part_001 lines 478 to 482): a detached
div gets textContent and innerHTML is read back, so the browser escapes
only the ampersand and the angle brackets. -/
def escapeHtml (s : String) : String := String.mk (escListChat s.data)

/-- The evidence item strings produced by the slice(0, 3).map((e, i))
expression of appendAssistantMessage (part_001 lines 362 to 367): only
the first three evidence items are rendered. -/
def evidenceItemsChat (evidence : List EvidenceItem) : List String :=
  App.mapIdxFrom
    (fun i e =>
      "<div class=\"evidence-item\"><div class=\"evidence-source\">["
      ++ toString (i + 1) ++ "] "
      ++ escapeHtml (jsOrString e.actor "Unknown") ++ " • "
      ++ escapeHtml e.source
      ++ "</div><div class=\"evidence-text\">" ++ escapeHtml e.text
      ++ "</div></div>")
    0 (evidence.take 3)

/-- The evidence block of appendAssistantMessage (part_001 lines 354 to
371): present when any evidence exists, its badge always showing the full
count while the list joins only the sliced items. -/
def evidenceSectionChat (evidence : List EvidenceItem) : String :=
  if evidence.length > 0 then
    "<div class=\"message-evidence\"><div class=\"evidence-header\"><span>📚 Evidence Sources</span><span class=\"evidence-count\">"
    ++ toString evidence.length
    ++ "</span></div><div class=\"evidence-list\">"
    ++ String.join (evidenceItemsChat evidence)
    ++ "</div></div>"
  else ""

/-- appendUserMessage: inserts one user message at the end of the
messages container. -/
def appendUserMessage (content : String) (timestamp : Option String)
    (st : ChatState) : ChatState :=
  { st with transcript := st.transcript ++ [TranscriptItem.user content timestamp] }

/-- appendAssistantMessage (part_001 lines 328 to 401): in one step the
registry gains the entry for the generated message id and the DOM gains
the assistant message.  The id, generated from Date.now and Math.random,
is a parameter. -/
def appendAssistantMessage (content : String) (metadata : ChatMetadata)
    (timestamp : Option String) (messageId : String) (st : ChatState) : ChatState :=
  { st with
      registry := registrySet st.registry messageId
        { content := content, metadata := metadata },
      transcript := st.transcript
        ++ [TranscriptItem.assistant messageId content metadata timestamp] }

/-- appendErrorMessage (part_001 lines 406 to 426): inserts one system
error entry; the registry is not touched. -/
def appendErrorMessage (err : String) (st : ChatState) : ChatState :=
  { st with transcript := st.transcript ++ [TranscriptItem.errorMsg err] }

/-- appendTypingIndicator: inserts the typing indicator. -/
def appendTypingIndicator (st : ChatState) : ChatState :=
  { st with transcript := st.transcript ++ [TranscriptItem.typing] }

/-- removeTypingIndicator: removes the first typing indicator if any. -/
def removeTypingIndicator (st : ChatState) : ChatState :=
  { st with transcript := removeFirstTyping st.transcript }

/-- The outcome of the POST message call as seen by sendMessage: a 200
body, a non-200 json body with an optional error field, or a rejection of
fetch or of json parsing. -/
inductive SendOutcome where
  | ok (assistant_message : String) (metadata : ChatMetadata)
  | err (error : Option String)
  | reject (message : String)
deriving DecidableEq

/-- The synchronous part of sendMessage up to the fetch (part_001 lines
225 to 252): guard on empty trimmed input and on the pending flag, hide
the welcome screen, clear the input, append the user message and the
typing indicator optimistically, set the pending flag and disable the
send button.  The second component tells whether the network call was
issued. -/
def sendMessageStart (st : ChatState) : ChatState × Bool :=
  let message := jsTrim st.inputValue
  if message = "" ∨ st.isWaitingForResponse = true then (st, false)
  else
    let st1 :=
      if st.welcomeVisible then
        { st with welcomeVisible := false, messagesVisible := true }
      else st
    let st2 := { st1 with inputValue := "" }
    let st3 := appendTypingIndicator (appendUserMessage message none st2)
    ({ st3 with isWaitingForResponse := true, sendBtnDisabled := true }, true)

/-- The continuation of sendMessage once the call resolves (part_001
lines 253 to 286).  On a 200 body: remove the indicator, append the
assistant message with a fresh id, set the displayed title to the first
fifty characters of the reply, reload the sidebar list.  On a non-200
body or a rejection: remove the indicator and append one error entry.
The finally clause clears the pending flag and re-enables the button. -/
def sendMessageResolve (o : SendOutcome) (freshId : String)
    (st : ChatState) : ChatState :=
  let stBody :=
    match o with
    | SendOutcome.ok am md =>
      let st1 := removeTypingIndicator st
      let st2 := appendAssistantMessage am md none freshId st1
      let st3 := { st2 with titleH2 := jsSubstringTo am 50 }
      { st3 with sidebarRefreshes := st3.sidebarRefreshes + 1 }
    | SendOutcome.err e =>
      appendErrorMessage (jsOrString e "Unknown error") (removeTypingIndicator st)
    | SendOutcome.reject m =>
      appendErrorMessage ("Connection error: " ++ m) (removeTypingIndicator st)
  { stBody with isWaitingForResponse := false, sendBtnDisabled := false }

/-- The outcome of the POST /api/conversations call made by
createNewChat.  The code never checks response.ok, so every received
JSON body flows into the same path; a non-200 error body carries no
conversation id field, which JS reads as undefined, modeled as none. -/
inductive CreateOutcome where
  | body (conversation_id : Option String)
  | reject
deriving DecidableEq

/-- createNewChat (part_001 lines 124 to 153): any received body has its
conversation id field, possibly the undefined of an unchecked non-200
error body, made active; then the welcome screen is shown, the messages
container is emptied, the title resets and the sidebar list reloads.  On
a rejection an alert is raised and nothing else changes.  The registry
is never touched. -/
def createNewChat (o : CreateOutcome) (st : ChatState) : ChatState :=
  match o with
  | CreateOutcome.body cid =>
    { st with currentConversationId := cid,
              welcomeVisible := true,
              messagesVisible := false,
              transcript := [],
              titleH2 := "Threat Intelligence Chat",
              sidebarRefreshes := st.sidebarRefreshes + 1 }
  | CreateOutcome.reject =>
    { st with alerts := st.alerts ++ ["Error creating new chat"] }

/-- One message record of a GET conversation body. -/
structure MsgRec where
  role : String
  content : String
  metadata : Option ChatMetadata
  timestamp : Option String
deriving DecidableEq

/-- The outcome of the GET conversation call as seen by loadConversation.
The code never checks response.ok, so a non-200 json body flows into the
same path as a 200 body; an error body carries no messages array. -/
inductive LoadOutcome where
  | reject
  | body (title : Option String) (messages : Option (List MsgRec))
deriving DecidableEq

/-- The messages.forEach loop of loadConversation: user records render as
user messages, every other role as an assistant message with a fresh
generated id drawn from the id stream. -/
def renderMessages : List MsgRec → List String → ChatState → ChatState
  | [], _, st => st
  | m :: rest, ids, st =>
    if m.role = "user" then
      renderMessages rest ids (appendUserMessage m.content m.timestamp st)
    else
      renderMessages rest ids.tail
        (appendAssistantMessage m.content (m.metadata.getD emptyMetadata)
          m.timestamp (ids.headD "") st)

/-- loadConversation (part_001 lines 158 to 194).  A rejection only
alerts.  A received body first sets the active id, hides the welcome
screen, sets the title (an absent title renders as the string undefined,
as JS textContent assignment of undefined does) and clears the container;
only then does the forEach touch the messages array, so a body without
one leaves the id switched and the container cleared when the thrown
TypeError lands in the catch alert. -/
def loadConversation (convId : String) (o : LoadOutcome)
    (freshIds : List String) (st : ChatState) : ChatState :=
  match o with
  | LoadOutcome.reject =>
    { st with alerts := st.alerts ++ ["Error loading conversation"] }
  | LoadOutcome.body title msgs =>
    let st1 := { st with currentConversationId := some convId,
                         welcomeVisible := false,
                         messagesVisible := true,
                         titleH2 := title.getD "undefined",
                         transcript := [] }
    match msgs with
    | none => { st1 with alerts := st1.alerts ++ ["Error loading conversation"] }
    | some ms =>
      let st2 := renderMessages ms freshIds st1
      { st2 with sidebarRefreshes := st2.sidebarRefreshes + 1 }

/-- deleteConversation (part_001 lines 199 to 216): a declined confirm is
a no-op; a rejected DELETE fetch only alerts (the response status is
never inspected); deleting the active conversation falls through to
createNewChat, any other deletion only reloads the sidebar list. -/
def deleteConversation (convId : String) (confirmed : Bool)
    (fetchResolves : Bool) (createOut : CreateOutcome) (st : ChatState) : ChatState :=
  if !confirmed then st
  else if !fetchResolves then
    { st with alerts := st.alerts ++ ["Error deleting conversation"] }
  else if st.currentConversationId = some convId then createNewChat createOut st
  else { st with sidebarRefreshes := st.sidebarRefreshes + 1 }

/-- The outcome of an export or feedback POST call. -/
inductive NetOutcome where
  | ok
  | httpError
  | reject (message : String)
deriving DecidableEq

/-- exportMessagePDF (part_001 lines 505 to 540): a missing registry
entry throws before the fetch, landing in the catch alert with no network
call; otherwise one call is made and a success downloads the blob. -/
def exportMessagePDF (messageId : String) (nowStr : String)
    (o : NetOutcome) (st : ChatState) : ChatState × Bool :=
  match st.registry.lookup messageId with
  | none =>
    ({ st with alerts := st.alerts
        ++ ["Error exporting PDF: Message data not found"] }, false)
  | some _ =>
    match o with
    | NetOutcome.ok =>
      ({ st with downloads := st.downloads
          ++ ["threat-ai-report-" ++ nowStr ++ ".pdf"] }, true)
    | NetOutcome.httpError =>
      ({ st with alerts := st.alerts ++ ["Error exporting PDF: Export failed"] }, true)
    | NetOutcome.reject m =>
      ({ st with alerts := st.alerts ++ ["Error exporting PDF: " ++ m] }, true)

/-- exportMessageCSV (part_001 lines 545 to 580), the CSV twin. -/
def exportMessageCSV (messageId : String) (nowStr : String)
    (o : NetOutcome) (st : ChatState) : ChatState × Bool :=
  match st.registry.lookup messageId with
  | none =>
    ({ st with alerts := st.alerts
        ++ ["Error exporting CSV: Message data not found"] }, false)
  | some _ =>
    match o with
    | NetOutcome.ok =>
      ({ st with downloads := st.downloads
          ++ ["threat-ai-export-" ++ nowStr ++ ".csv"] }, true)
    | NetOutcome.httpError =>
      ({ st with alerts := st.alerts ++ ["Error exporting CSV: Export failed"] }, true)
    | NetOutcome.reject m =>
      ({ st with alerts := st.alerts ++ ["Error exporting CSV: " ++ m] }, true)

/-- The body posted by quickFeedback when it does reach the network. -/
structure QuickFeedbackBody where
  rating : Nat
  relevance : String
  comments : String
deriving DecidableEq

/-- quickFeedback (part_001 lines 607 to 633): a missing registry entry
returns silently, with no alert and no network call; otherwise the fixed
rating body is posted (a rejected post is only logged to the console).
The button class toggling touches no modeled state. -/
def quickFeedback (messageId : String) (ftype : String)
    (st : ChatState) : ChatState × Option QuickFeedbackBody :=
  match st.registry.lookup messageId with
  | none => (st, none)
  | some _ =>
    (st, some
      { rating := if ftype = "positive" then 5 else 1,
        relevance := if ftype = "positive" then "relevant" else "not_relevant",
        comments := "Quick feedback: " ++ ftype })

/-- submitFeedback of the chat page (part_001 lines 682 to 740): no modal
target is a silent no-op; a missing registry entry alerts locally; the
all-empty form alerts locally; otherwise one call is made.  The success
toast is not modeled; error outcomes alert. -/
def submitFeedback (currentFeedbackMessageId : Option String)
    (currentFeedbackRating : Nat) (relevance accuracy comments : String)
    (o : NetOutcome) (st : ChatState) : ChatState × Bool :=
  match currentFeedbackMessageId with
  | none => (st, false)
  | some mid =>
    match st.registry.lookup mid with
    | none => ({ st with alerts := st.alerts ++ ["Message data not found"] }, false)
    | some _ =>
      if currentFeedbackRating = 0 ∧ relevance = "" ∧ accuracy = "" ∧ comments = "" then
        ({ st with alerts := st.alerts
            ++ ["Please provide at least one piece of feedback"] }, false)
      else
        match o with
        | NetOutcome.ok => (st, true)
        | NetOutcome.httpError =>
          ({ st with alerts := st.alerts ++ ["Error submitting feedback"] }, true)
        | NetOutcome.reject m =>
          ({ st with alerts := st.alerts ++ ["Error submitting feedback: " ++ m] }, true)

/-- The session operations of the chat page: everything that can touch
the modeled state during a session, with the remote outcomes and the
generated ids as environment-chosen arguments. -/
inductive SessOp where
  | typeInput (s : String)
  | send
  | resolveSend (o : SendOutcome) (freshId : String)
  | newChat (o : CreateOutcome)
  | loadConv (convId : String) (o : LoadOutcome) (freshIds : List String)
  | deleteConv (convId : String) (confirmed : Bool) (fetchResolves : Bool)
      (createOut : CreateOutcome)
  | exportPDF (messageId : String) (nowStr : String) (o : NetOutcome)
  | exportCSV (messageId : String) (nowStr : String) (o : NetOutcome)
  | quickFB (messageId : String) (ftype : String)
  | submitFB (mid : Option String) (rating : Nat)
      (relevance accuracy comments : String) (o : NetOutcome)

/-- The effect of one session operation on the chat state. -/
def applySessOp (op : SessOp) (st : ChatState) : ChatState :=
  match op with
  | SessOp.typeInput s => { st with inputValue := s }
  | SessOp.send => (sendMessageStart st).1
  | SessOp.resolveSend o i => sendMessageResolve o i st
  | SessOp.newChat o => createNewChat o st
  | SessOp.loadConv c o ids => loadConversation c o ids st
  | SessOp.deleteConv c conf fr co => deleteConversation c conf fr co st
  | SessOp.exportPDF m n o => (exportMessagePDF m n o st).1
  | SessOp.exportCSV m n o => (exportMessageCSV m n o st).1
  | SessOp.quickFB m t => (quickFeedback m t st).1
  | SessOp.submitFB mid r rel acc com o =>
    (submitFeedback mid r rel acc com o st).1

/-- The event semantics with the number of in-flight send calls made
explicit: an accepted send increments it, a resolution event is only
meaningful while a call is outstanding and decrements it; every other
operation leaves it alone. -/
def chatStep (s : ChatState × Nat) (op : SessOp) : ChatState × Nat :=
  match op with
  | SessOp.send =>
    let r := sendMessageStart s.1
    (r.1, s.2 + (if r.2 then 1 else 0))
  | SessOp.resolveSend o i =>
    if s.2 = 0 then (s.1, 0) else (sendMessageResolve o i s.1, s.2 - 1)
  | op2 => (applySessOp op2 s.1, s.2)

/-- The single-flight invariant: a call is outstanding exactly while the
pending flag is set. -/
def ChatInv (s : ChatState × Nat) : Prop :=
  s.2 = (if s.1.isWaitingForResponse then 1 else 0)

end Chat

/-! Concrete fixture values used to instantiate the theorems below on
explicit inputs. -/

/-- A chat page state as right after startup, with one conversation
active. -/
def stBase : ChatState :=
  { currentConversationId := some "c1", isWaitingForResponse := false,
    inputValue := "", welcomeVisible := true, messagesVisible := false,
    titleH2 := "Threat Intelligence Chat", transcript := [], registry := [],
    alerts := [], downloads := [], sidebarRefreshes := 0,
    sendBtnDisabled := false }

/-- The base state with a whitespace-only input. -/
def stWhitespace : ChatState := { stBase with inputValue := "   " }

/-- The base state with a non-empty input ready to send. -/
def stReady : ChatState := { stBase with inputValue := "hello" }

/-- A state in which the first assistant reply has already set the
displayed title and a second send is in flight. -/
def stTitled : ChatState :=
  { stBase with titleH2 := "First answer",
                isWaitingForResponse := true,
                welcomeVisible := false, messagesVisible := true,
                transcript := [TranscriptItem.user "second question" none,
                               TranscriptItem.typing] }

/-- A state with conversation a active and one rendered message. -/
def stLoaded : ChatState :=
  { stBase with currentConversationId := some "a",
                transcript := [TranscriptItem.user "hello" none] }

/-- A state whose active conversation is not the one being deleted. -/
def stOther : ChatState := { stBase with currentConversationId := some "zz" }

/-- A query result whose trace id carries markup, exercising the raw
trace id insertion of the metadata section. -/
def cexResult : App.QueryResult :=
  { query := "q", answer := "a", confidence := 845, evidence := [],
    model := "m", source_count := 2, timestamp := "ts",
    trace_id := some "<script>alert(1)</script>" }

/-- The same result without a trace id, isolating the origin of the raw
markup. -/
def cexResultNoTrace : App.QueryResult := { cexResult with trace_id := none }

/-- The characters of an opening script tag. -/
def scriptTag : List Char := ['<', 's', 'c', 'r', 'i', 'p', 't', '>']

/-- A base state carrying one registry entry. -/
def stWithReg : ChatState :=
  { stBase with registry :=
      [("m1", { content := "ans", metadata := emptyMetadata })] }

/-- A query page state with a whitespace-only input. -/
def qpBase : App.QueryPageState :=
  { queryInput := " ", resultsHtml := "", lastResult := none,
    submitDisabled := false, feedbackVisible := false,
    centerVisible := true, resultsAreaVisible := false }

/-- Five distinct evidence items for the slicing theorem. -/
def evFive : List EvidenceItem :=
  [ { actor := some "APT28", source := "s1", text := "t1", score := 900 },
    { actor := none, source := "s2", text := "t2", score := 800 },
    { actor := some "APT29", source := "s3", text := "t3", score := 700 },
    { actor := some "Lazarus", source := "s4", text := "t4", score := 600 },
    { actor := some "Emotet", source := "s5", text := "t5", score := 500 } ]

/-! Helper lemmas shared by the claim theorems. -/

/-- String append acts componentwise on the character data. -/
theorem strData_append (a b : String) : (a ++ b).data = a.data ++ b.data := rfl

/-- The middle factor of a three-way string concatenation is an infix of
the whole, at the character level. -/
theorem strInfix_mid (a b c : String) :
    List.IsInfix b.data ((a ++ b ++ c).data) := ⟨a.data, c.data, rfl⟩

/-- Non-membership distributes over list append. -/
theorem notMemAppend {c : Char} {a b : List Char} (h1 : c ∉ a) (h2 : c ∉ b) :
    c ∉ a ++ b := fun h => (List.mem_append.mp h).elim h1 h2

/-- The map-based escaping of app.js always yields a fully escaped
form. -/
theorem escListApp_form (l : List Char) : EscapedForm5 (escListApp l) := by
  induction l with
  | nil => exact EscapedForm5.nil
  | cons c rest ih =>
    show EscapedForm5 (escCharApp c ++ escListApp rest)
    unfold escCharApp
    by_cases h1 : c = '&'
    · rw [if_pos h1]; exact EscapedForm5.amp _ ih
    · rw [if_neg h1]
      by_cases h2 : c = '<'
      · rw [if_pos h2]; exact EscapedForm5.lt _ ih
      · rw [if_neg h2]
        by_cases h3 : c = '>'
        · rw [if_pos h3]; exact EscapedForm5.gt _ ih
        · rw [if_neg h3]
          by_cases h4 : c = quoteC
          · rw [if_pos h4]; exact EscapedForm5.quo _ ih
          · rw [if_neg h4]
            by_cases h5 : c = aposC
            · rw [if_pos h5]; exact EscapedForm5.apo _ ih
            · rw [if_neg h5]
              exact EscapedForm5.other c _ h1 h2 h3 h4 h5 ih

/-- The DOM-based escaping of the chat page always yields the weaker
three-entity escaped form. -/
theorem escListChat_form (l : List Char) : EscapedForm3 (escListChat l) := by
  induction l with
  | nil => exact EscapedForm3.nil
  | cons c rest ih =>
    show EscapedForm3 (escCharChat c ++ escListChat rest)
    unfold escCharChat
    by_cases h1 : c = '&'
    · rw [if_pos h1]; exact EscapedForm3.amp _ ih
    · rw [if_neg h1]
      by_cases h2 : c = '<'
      · rw [if_pos h2]; exact EscapedForm3.lt _ ih
      · rw [if_neg h2]
        by_cases h3 : c = '>'
        · rw [if_pos h3]; exact EscapedForm3.gt _ ih
        · rw [if_neg h3]
          exact EscapedForm3.other c _ h1 h2 h3 ih

/-- A fully escaped form carries no raw angle bracket and no raw
quote. -/
theorem escapedForm5_noRaw {l : List Char} (h : EscapedForm5 l) :
    '<' ∉ l ∧ '>' ∉ l ∧ quoteC ∉ l ∧ aposC ∉ l := by
  induction h with
  | nil => simp
  | amp l _ ih =>
    obtain ⟨i1, i2, i3, i4⟩ := ih
    exact ⟨notMemAppend (by decide) i1, notMemAppend (by decide) i2,
           notMemAppend (by decide) i3, notMemAppend (by decide) i4⟩
  | lt l _ ih =>
    obtain ⟨i1, i2, i3, i4⟩ := ih
    exact ⟨notMemAppend (by decide) i1, notMemAppend (by decide) i2,
           notMemAppend (by decide) i3, notMemAppend (by decide) i4⟩
  | gt l _ ih =>
    obtain ⟨i1, i2, i3, i4⟩ := ih
    exact ⟨notMemAppend (by decide) i1, notMemAppend (by decide) i2,
           notMemAppend (by decide) i3, notMemAppend (by decide) i4⟩
  | quo l _ ih =>
    obtain ⟨i1, i2, i3, i4⟩ := ih
    exact ⟨notMemAppend (by decide) i1, notMemAppend (by decide) i2,
           notMemAppend (by decide) i3, notMemAppend (by decide) i4⟩
  | apo l _ ih =>
    obtain ⟨i1, i2, i3, i4⟩ := ih
    exact ⟨notMemAppend (by decide) i1, notMemAppend (by decide) i2,
           notMemAppend (by decide) i3, notMemAppend (by decide) i4⟩
  | other c l hamp hlt hgt hq ha _ ih =>
    obtain ⟨i1, i2, i3, i4⟩ := ih
    refine ⟨?_, ?_, ?_, ?_⟩ <;> intro hmem
    · exact (List.mem_cons.mp hmem).elim (fun he => hlt he.symm) i1
    · exact (List.mem_cons.mp hmem).elim (fun he => hgt he.symm) i2
    · exact (List.mem_cons.mp hmem).elim (fun he => hq he.symm) i3
    · exact (List.mem_cons.mp hmem).elim (fun he => ha he.symm) i4

/-- The three-entity escaped form carries no raw angle bracket. -/
theorem escapedForm3_noRaw {l : List Char} (h : EscapedForm3 l) :
    '<' ∉ l ∧ '>' ∉ l := by
  induction h with
  | nil => simp
  | amp l _ ih =>
    obtain ⟨i1, i2⟩ := ih
    exact ⟨notMemAppend (by decide) i1, notMemAppend (by decide) i2⟩
  | lt l _ ih =>
    obtain ⟨i1, i2⟩ := ih
    exact ⟨notMemAppend (by decide) i1, notMemAppend (by decide) i2⟩
  | gt l _ ih =>
    obtain ⟨i1, i2⟩ := ih
    exact ⟨notMemAppend (by decide) i1, notMemAppend (by decide) i2⟩
  | other c l hamp hlt hgt _ ih =>
    obtain ⟨i1, i2⟩ := ih
    refine ⟨?_, ?_⟩ <;> intro hmem
    · exact (List.mem_cons.mp hmem).elim (fun he => hlt he.symm) i1
    · exact (List.mem_cons.mp hmem).elim (fun he => hgt he.symm) i2

/-- Lookup is unchanged by appending further pairs when the key is
already present. -/
theorem lookup_append_of_isSome (k : String)
    (reg l2 : List (String × RegistryEntry))
    (h : (List.lookup k reg).isSome = true) :
    List.lookup k (reg ++ l2) = List.lookup k reg := by
  induction reg with
  | nil => simp [List.lookup] at h
  | cons p rest ih =>
    obtain ⟨a, b⟩ := p
    by_cases hk : k = a
    · subst hk
      have hr : (k == k) = true := beq_iff_eq.mpr rfl
      rw [List.cons_append]
      simp only [List.lookup, hr]
    · have hb : (k == a) = false := beq_eq_false_iff_ne.mpr hk
      rw [List.cons_append]
      simp only [List.lookup, hb] at h ⊢
      exact ih h

/-- Lookup stays defined under the in-place value update that models
assignment to an existing key. -/
theorem lookup_isSome_mapUpdate (k kk : String) (v : RegistryEntry)
    (reg : List (String × RegistryEntry))
    (h : (List.lookup k reg).isSome = true) :
    (List.lookup k
      (reg.map (fun p => if p.1 = kk then (kk, v) else p))).isSome = true := by
  induction reg with
  | nil => simp [List.lookup] at h
  | cons p rest ih =>
    obtain ⟨a, b⟩ := p
    rw [List.map_cons]
    by_cases hk : k = a
    · subst hk
      by_cases ha : k = kk
      · have he : (if (k, b).1 = kk then (kk, v) else (k, b)) = (kk, v) := by
          simp [ha]
        rw [he, ← ha]
        have hr : (k == k) = true := beq_iff_eq.mpr rfl
        simp only [List.lookup, hr, Option.isSome_some]
      · have he : (if (k, b).1 = kk then (kk, v) else (k, b)) = (k, b) := by
          simp [ha]
        rw [he]
        have hr : (k == k) = true := beq_iff_eq.mpr rfl
        simp only [List.lookup, hr, Option.isSome_some]
    · have hb : (k == a) = false := beq_eq_false_iff_ne.mpr hk
      have hrest : (List.lookup k rest).isSome = true := by
        simp only [List.lookup, hb] at h
        exact h
      by_cases ha : a = kk
      · have hkk : k ≠ kk := fun h2 => hk (h2.trans ha.symm)
        have hbk : (k == kk) = false := beq_eq_false_iff_ne.mpr hkk
        have he : (if (a, b).1 = kk then (kk, v) else (a, b)) = (kk, v) := by
          simp [ha]
        rw [he]
        simp only [List.lookup, hbk]
        exact ih hrest
      · have he : (if (a, b).1 = kk then (kk, v) else (a, b)) = (a, b) := by
          simp [ha]
        rw [he]
        simp only [List.lookup, hb]
        exact ih hrest

/-- A key present in the registry stays present across the object
assignment registrySet. -/
theorem lookup_isSome_registrySet (reg : List (String × RegistryEntry))
    (k kk : String) (v : RegistryEntry)
    (h : (List.lookup k reg).isSome = true) :
    (List.lookup k (registrySet reg kk v)).isSome = true := by
  unfold registrySet
  by_cases hp : (List.lookup kk reg).isSome = true
  · rw [if_pos hp]
    exact lookup_isSome_mapUpdate k kk v reg h
  · rw [if_neg hp]
    rw [lookup_append_of_isSome k reg [(kk, v)] h]
    exact h

/-- A key absent from the registry has no pair carrying it. -/
theorem countKey_zero_of_lookup_none (k : String)
    (reg : List (String × RegistryEntry))
    (h : List.lookup k reg = none) : countKey k reg = 0 := by
  induction reg with
  | nil => rfl
  | cons p rest ih =>
    obtain ⟨a, b⟩ := p
    by_cases hk : k = a
    · subst hk
      have hr : (k == k) = true := beq_iff_eq.mpr rfl
      simp only [List.lookup, hr] at h
      exact absurd h (by simp)
    · have hb : (k == a) = false := beq_eq_false_iff_ne.mpr hk
      have hka : (a == k) = false :=
        beq_eq_false_iff_ne.mpr (fun h2 => hk h2.symm)
      simp only [List.lookup, hb] at h
      unfold countKey
      rw [List.filter_cons]
      simp only [hka, if_false]
      exact ih h

/-- Appending a fresh pair to the registry adds exactly one pair with its
key. -/
theorem countKey_append_fresh (k : String)
    (reg : List (String × RegistryEntry)) (v : RegistryEntry)
    (h : List.lookup k reg = none) :
    countKey k (reg ++ [(k, v)]) = 1 := by
  unfold countKey
  rw [List.filter_append]
  have h0 : countKey k reg = 0 := countKey_zero_of_lookup_none k reg h
  unfold countKey at h0
  simp [h0]

/-- A guarded sendMessage invocation, empty trimmed input or pending
flag, is a no-op that issues no call. -/
theorem sendMessageStart_guard (st : ChatState)
    (h : jsTrim st.inputValue = "" ∨ st.isWaitingForResponse = true) :
    Chat.sendMessageStart st = (st, false) := by
  unfold Chat.sendMessageStart
  rw [if_pos h]

/-- An accepted sendMessage invocation issues the call, raises the
pending flag, and leaves the registry untouched. -/
theorem sendMessageStart_accept (st : ChatState)
    (h1 : ¬ jsTrim st.inputValue = "") (h2 : st.isWaitingForResponse = false) :
    (Chat.sendMessageStart st).2 = true
    ∧ (Chat.sendMessageStart st).1.isWaitingForResponse = true
    ∧ (Chat.sendMessageStart st).1.registry = st.registry := by
  unfold Chat.sendMessageStart
  rw [if_neg (by
    intro hor
    exact hor.elim h1 (fun hb => by rw [h2] at hb; exact Bool.false_ne_true hb))]
  cases hw : st.welcomeVisible <;>
    simp [Chat.appendTypingIndicator, Chat.appendUserMessage, hw]

/-- Every sendMessage invocation either is a no-op that issues no call,
or starts from a clear pending flag, issues the call and raises the
flag. -/
theorem sendMessageStart_cases (st : ChatState) :
    Chat.sendMessageStart st = (st, false)
    ∨ (st.isWaitingForResponse = false
       ∧ (Chat.sendMessageStart st).2 = true
       ∧ (Chat.sendMessageStart st).1.isWaitingForResponse = true) := by
  by_cases h : jsTrim st.inputValue = "" ∨ st.isWaitingForResponse = true
  · exact Or.inl (sendMessageStart_guard st h)
  · push_neg at h
    have h2 : st.isWaitingForResponse = false :=
      Bool.not_eq_true _ ▸ Bool.of_not_eq_true h.2
    obtain ⟨a1, a2, _⟩ := sendMessageStart_accept st h.1 h2
    exact Or.inr ⟨h2, a1, a2⟩

/-- Every resolution path of sendMessage clears the pending flag in its
finally clause. -/
theorem sendMessageResolve_flag (o : Chat.SendOutcome) (i : String)
    (st : ChatState) :
    (Chat.sendMessageResolve o i st).isWaitingForResponse = false := by
  cases o <;> rfl

/-- The rendering loop of loadConversation does not touch the pending
flag. -/
theorem renderMessages_flag (ms : List Chat.MsgRec) (ids : List String)
    (st : ChatState) :
    (Chat.renderMessages ms ids st).isWaitingForResponse
      = st.isWaitingForResponse := by
  induction ms generalizing ids st with
  | nil => rfl
  | cons m rest ih =>
    unfold Chat.renderMessages
    by_cases h : m.role = "user"
    · rw [if_pos h, ih]; rfl
    · rw [if_neg h, ih]; rfl

/-- The rendering loop of loadConversation does not touch the active
conversation id. -/
theorem renderMessages_cid (ms : List Chat.MsgRec) (ids : List String)
    (st : ChatState) :
    (Chat.renderMessages ms ids st).currentConversationId
      = st.currentConversationId := by
  induction ms generalizing ids st with
  | nil => rfl
  | cons m rest ih =>
    unfold Chat.renderMessages
    by_cases h : m.role = "user"
    · rw [if_pos h, ih]; rfl
    · rw [if_neg h, ih]; rfl

/-- The rendering loop of loadConversation only ever adds registry
entries: a present key stays present. -/
theorem renderMessages_lookup (ms : List Chat.MsgRec) (ids : List String)
    (st : ChatState) (k : String)
    (h : (List.lookup k st.registry).isSome = true) :
    (List.lookup k (Chat.renderMessages ms ids st).registry).isSome = true := by
  induction ms generalizing ids st with
  | nil => exact h
  | cons m rest ih =>
    unfold Chat.renderMessages
    by_cases hr : m.role = "user"
    · rw [if_pos hr]
      exact ih _ _ h
    · rw [if_neg hr]
      exact ih _ _ (lookup_isSome_registrySet st.registry k _ _ h)

/-- createNewChat does not touch the pending flag. -/
theorem createNewChat_flag (o : Chat.CreateOutcome) (st : ChatState) :
    (Chat.createNewChat o st).isWaitingForResponse
      = st.isWaitingForResponse := by
  cases o <;> rfl

/-- createNewChat never touches the registry. -/
theorem createNewChat_registry (o : Chat.CreateOutcome) (st : ChatState) :
    (Chat.createNewChat o st).registry = st.registry := by
  cases o <;> rfl

/-- loadConversation does not touch the pending flag. -/
theorem loadConversation_flag (c : String) (o : Chat.LoadOutcome)
    (ids : List String) (st : ChatState) :
    (Chat.loadConversation c o ids st).isWaitingForResponse
      = st.isWaitingForResponse := by
  cases o with
  | reject => rfl
  | body title msgs =>
    cases msgs with
    | none => rfl
    | some ms =>
      show (Chat.renderMessages ms ids _).isWaitingForResponse = _
      rw [renderMessages_flag]

/-- deleteConversation does not touch the pending flag. -/
theorem deleteConversation_flag (c : String) (conf fr : Bool)
    (co : Chat.CreateOutcome) (st : ChatState) :
    (Chat.deleteConversation c conf fr co st).isWaitingForResponse
      = st.isWaitingForResponse := by
  unfold Chat.deleteConversation
  cases conf with
  | false => rfl
  | true =>
    cases fr with
    | false => rfl
    | true =>
      by_cases hc : st.currentConversationId = some c
      · simp only [Bool.not_true, Bool.if_false_left, Bool.and_self,
          if_pos hc]
        simp [createNewChat_flag]
      · simp only [Bool.not_true, if_neg hc]
        simp

/-- deleteConversation never touches the registry. -/
theorem deleteConversation_registry (c : String) (conf fr : Bool)
    (co : Chat.CreateOutcome) (st : ChatState) :
    (Chat.deleteConversation c conf fr co st).registry = st.registry := by
  unfold Chat.deleteConversation
  cases conf with
  | false => rfl
  | true =>
    cases fr with
    | false => rfl
    | true =>
      by_cases hc : st.currentConversationId = some c
      · simp only [if_pos hc]
        simp [createNewChat_registry]
      · simp only [if_neg hc]
        simp

/-- The PDF export changes neither the pending flag nor the registry. -/
theorem exportMessagePDF_frame (m n : String) (o : Chat.NetOutcome)
    (st : ChatState) :
    (Chat.exportMessagePDF m n o st).1.isWaitingForResponse
      = st.isWaitingForResponse
    ∧ (Chat.exportMessagePDF m n o st).1.registry = st.registry := by
  unfold Chat.exportMessagePDF
  cases hl : List.lookup m st.registry <;> cases o <;> simp

/-- The CSV export changes neither the pending flag nor the registry. -/
theorem exportMessageCSV_frame (m n : String) (o : Chat.NetOutcome)
    (st : ChatState) :
    (Chat.exportMessageCSV m n o st).1.isWaitingForResponse
      = st.isWaitingForResponse
    ∧ (Chat.exportMessageCSV m n o st).1.registry = st.registry := by
  unfold Chat.exportMessageCSV
  cases hl : List.lookup m st.registry <;> cases o <;> simp

/-- quickFeedback changes neither the pending flag nor the registry. -/
theorem quickFeedback_frame (m t : String) (st : ChatState) :
    (Chat.quickFeedback m t st).1.isWaitingForResponse
      = st.isWaitingForResponse
    ∧ (Chat.quickFeedback m t st).1.registry = st.registry := by
  unfold Chat.quickFeedback
  cases hl : List.lookup m st.registry <;> simp

/-- The modal feedback submission changes neither the pending flag nor
the registry. -/
theorem submitFeedback_frame (mid : Option String) (r : Nat)
    (rel acc com : String) (o : Chat.NetOutcome) (st : ChatState) :
    (Chat.submitFeedback mid r rel acc com o st).1.isWaitingForResponse
      = st.isWaitingForResponse
    ∧ (Chat.submitFeedback mid r rel acc com o st).1.registry
      = st.registry := by
  unfold Chat.submitFeedback
  cases mid with
  | none => simp
  | some m =>
    cases hl : List.lookup m st.registry with
    | none => simp [hl]
    | some e =>
      by_cases hg : r = 0 ∧ rel = "" ∧ acc = "" ∧ com = ""
      · simp [hl, hg]
      · cases o <;> simp [hl, hg]

/-- The registry of the chat session only ever grows: a key present
before any session operation is still present after it. -/
theorem applySessOp_registry_mono (op : Chat.SessOp) (st : ChatState)
    (k : String) (h : (List.lookup k st.registry).isSome = true) :
    (List.lookup k (Chat.applySessOp op st).registry).isSome = true := by
  cases op with
  | typeInput s => exact h
  | send =>
    show (List.lookup k (Chat.sendMessageStart st).1.registry).isSome = true
    rcases sendMessageStart_cases st with heq | ⟨_, _, _⟩
    · rw [heq]; exact h
    · by_cases hg : jsTrim st.inputValue = "" ∨ st.isWaitingForResponse = true
      · rw [sendMessageStart_guard st hg]; exact h
      · push_neg at hg
        have h2 : st.isWaitingForResponse = false :=
          Bool.of_not_eq_true hg.2
        rw [(sendMessageStart_accept st hg.1 h2).2.2]; exact h
  | resolveSend o i =>
    show (List.lookup k (Chat.sendMessageResolve o i st).registry).isSome = true
    cases o with
    | ok am md =>
      exact lookup_isSome_registrySet st.registry k i _ h
    | err e => exact h
    | reject m => exact h
  | newChat o =>
    show (List.lookup k (Chat.createNewChat o st).registry).isSome = true
    rw [createNewChat_registry]; exact h
  | loadConv c o ids =>
    show (List.lookup k (Chat.loadConversation c o ids st).registry).isSome = true
    cases o with
    | reject => exact h
    | body title msgs =>
      cases msgs with
      | none => exact h
      | some ms =>
        show (List.lookup k (Chat.renderMessages ms ids _).registry).isSome = true
        exact renderMessages_lookup ms ids _ k h
  | deleteConv c conf fr co =>
    show (List.lookup k (Chat.deleteConversation c conf fr co st).registry).isSome = true
    rw [deleteConversation_registry]; exact h
  | exportPDF m n o =>
    show (List.lookup k (Chat.exportMessagePDF m n o st).1.registry).isSome = true
    rw [(exportMessagePDF_frame m n o st).2]; exact h
  | exportCSV m n o =>
    show (List.lookup k (Chat.exportMessageCSV m n o st).1.registry).isSome = true
    rw [(exportMessageCSV_frame m n o st).2]; exact h
  | quickFB m t =>
    show (List.lookup k (Chat.quickFeedback m t st).1.registry).isSome = true
    rw [(quickFeedback_frame m t st).2]; exact h
  | submitFB mid r rel acc com o =>
    show (List.lookup k
      (Chat.submitFeedback mid r rel acc com o st).1.registry).isSome = true
    rw [(submitFeedback_frame mid r rel acc com o st).2]; exact h

/-- The single-flight invariant is preserved by every session event. -/
theorem chatInv_step (s : ChatState × Nat) (op : Chat.SessOp)
    (h : Chat.ChatInv s) : Chat.ChatInv (Chat.chatStep s op) := by
  obtain ⟨st, n⟩ := s
  unfold Chat.ChatInv at h ⊢
  cases op with
  | send =>
    show (n + (if (Chat.sendMessageStart st).2 then 1 else 0))
        = (if (Chat.sendMessageStart st).1.isWaitingForResponse then 1 else 0)
    rcases sendMessageStart_cases st with heq | ⟨hf, h2, h3⟩
    · rw [heq]
      simpa using h
    · rw [h2, h3]
      rw [hf] at h
      simpa using h
  | resolveSend o i =>
    show Chat.ChatInv
      (if n = 0 then (st, 0) else (Chat.sendMessageResolve o i st, n - 1))
    by_cases hn : n = 0
    · rw [if_pos hn]
      unfold Chat.ChatInv
      exact hn ▸ h
    · rw [if_neg hn]
      unfold Chat.ChatInv
      have hflag : st.isWaitingForResponse = true := by
        cases hw : st.isWaitingForResponse with
        | false => rw [hw] at h; simp at h; exact absurd h hn
        | true => rfl
      rw [hflag] at h
      simp at h
      rw [sendMessageResolve_flag]
      simp [h]
  | typeInput s => exact h
  | newChat o =>
    show n = (if (Chat.createNewChat o st).isWaitingForResponse then 1 else 0)
    rw [createNewChat_flag]; exact h
  | loadConv c o ids =>
    show n = (if (Chat.loadConversation c o ids st).isWaitingForResponse then 1 else 0)
    rw [loadConversation_flag]; exact h
  | deleteConv c conf fr co =>
    show n = (if (Chat.deleteConversation c conf fr co st).isWaitingForResponse then 1 else 0)
    rw [deleteConversation_flag]; exact h
  | exportPDF m nn o =>
    show n = (if (Chat.exportMessagePDF m nn o st).1.isWaitingForResponse then 1 else 0)
    rw [(exportMessagePDF_frame m nn o st).1]; exact h
  | exportCSV m nn o =>
    show n = (if (Chat.exportMessageCSV m nn o st).1.isWaitingForResponse then 1 else 0)
    rw [(exportMessageCSV_frame m nn o st).1]; exact h
  | quickFB m t =>
    show n = (if (Chat.quickFeedback m t st).1.isWaitingForResponse then 1 else 0)
    rw [(quickFeedback_frame m t st).1]; exact h
  | submitFB mid r rel acc com o =>
    show n = (if (Chat.submitFeedback mid r rel acc com o st).1.isWaitingForResponse then 1 else 0)
    rw [(submitFeedback_frame mid r rel acc com o st).1]; exact h

/-- Removing the first typing indicator leaves the non-typing transcript
items, in particular every user message, untouched. -/
theorem removeFirstTyping_filter (l : List TranscriptItem) :
    (removeFirstTyping l).filter (fun it => !(isTyping it))
      = l.filter (fun it => !(isTyping it)) := by
  induction l with
  | nil => rfl
  | cons it rest ih =>
    cases it with
    | typing => simp [removeFirstTyping, List.filter_cons, isTyping]
    | user c t =>
      have hstep : removeFirstTyping (TranscriptItem.user c t :: rest)
          = TranscriptItem.user c t :: removeFirstTyping rest := rfl
      rw [hstep, List.filter_cons, List.filter_cons, ih]
    | assistant a b c d =>
      have hstep : removeFirstTyping (TranscriptItem.assistant a b c d :: rest)
          = TranscriptItem.assistant a b c d :: removeFirstTyping rest := rfl
      rw [hstep, List.filter_cons, List.filter_cons, ih]
    | errorMsg e =>
      have hstep : removeFirstTyping (TranscriptItem.errorMsg e :: rest)
          = TranscriptItem.errorMsg e :: removeFirstTyping rest := rfl
      rw [hstep, List.filter_cons, List.filter_cons, ih]

/-- The index-aware map preserves list length. -/
theorem mapIdxFrom_length (f : Nat → EvidenceItem → String) :
    ∀ (i : Nat) (l : List EvidenceItem),
      (App.mapIdxFrom f i l).length = l.length := by
  intro i l
  induction l generalizing i with
  | nil => rfl
  | cons e rest ih =>
    show (f i e :: App.mapIdxFrom f (i + 1) rest).length = rest.length + 1
    simp [ih]

/-- Looking up the key of a freshly appended pair finds it. -/
theorem lookup_append_fresh (k : String) (v : RegistryEntry)
    (reg : List (String × RegistryEntry))
    (h : List.lookup k reg = none) :
    List.lookup k (reg ++ [(k, v)]) = some v := by
  induction reg with
  | nil =>
    have hr : (k == k) = true := beq_iff_eq.mpr rfl
    simp only [List.nil_append, List.lookup, hr]
  | cons p rest ih =>
    obtain ⟨a, b⟩ := p
    by_cases hk : k = a
    · subst hk
      have hr : (k == k) = true := beq_iff_eq.mpr rfl
      simp only [List.lookup, hr] at h
      exact absurd h (by simp)
    · have hb : (k == a) = false := beq_eq_false_iff_ne.mpr hk
      rw [List.cons_append]
      simp only [List.lookup, hb] at h ⊢
      exact ih h

/-! The claim theorems. -/

set_option maxRecDepth 20000 in
/-- C1, counterexample: at a concrete query result whose trace id carries
an opening script tag, the rendered metadata section of displayResults
contains that tag raw; the escaped form of the same string does not
contain it, and neither does the metadata section without the trace id,
so the raw markup originates from the unescaped trace id insertion.  This
refutes the claim that every backend string, trace id included, reaches
the render surface escaped. -/
theorem c1_trace_id_unescaped_cex :
    subOccurs scriptTag (App.metadataHtml cexResult "12:00:00").data = true
    ∧ subOccurs scriptTag (App.escapeHtml "<script>alert(1)</script>").data = false
    ∧ subOccurs scriptTag (App.metadataHtml cexResultNoTrace "12:00:00").data = false := by
  refine ⟨by decide, by decide, by decide⟩

/-- C1 (corrected): the strings routed through escapeHtml are escaped on
both pages, but to different degrees, and the trace id bypasses escaping
entirely.  On the query page the effective map-based escapeHtml yields a
fully escaped form free of raw angle brackets and quotes; the chat page
DOM-based escapeHtml yields only the three-entity form, free of raw angle
brackets but passing both quote characters through raw; and the metadata
section of displayResults embeds the first eight characters of a present
non-empty trace id raw into the markup. -/
theorem c1_escaping_amended :
    (∀ s : String,
      EscapedForm5 (App.escapeHtml s).data
      ∧ '<' ∉ (App.escapeHtml s).data ∧ '>' ∉ (App.escapeHtml s).data
      ∧ quoteC ∉ (App.escapeHtml s).data ∧ aposC ∉ (App.escapeHtml s).data
      ∧ EscapedForm3 (Chat.escapeHtml s).data
      ∧ '<' ∉ (Chat.escapeHtml s).data ∧ '>' ∉ (Chat.escapeHtml s).data)
    ∧ Chat.escapeHtml (String.mk [quoteC]) = String.mk [quoteC]
    ∧ Chat.escapeHtml (String.mk [aposC]) = String.mk [aposC]
    ∧ (∀ (r : App.QueryResult) (timeStr tid : String),
        r.trace_id = some tid → tid ≠ "" →
        List.IsInfix (jsSubstringTo tid 8).data
          (App.metadataHtml r timeStr).data) := by
  refine ⟨?_, by decide, by decide, ?_⟩
  · intro s
    have h5 : EscapedForm5 (App.escapeHtml s).data := escListApp_form s.data
    have h3 : EscapedForm3 (Chat.escapeHtml s).data := escListChat_form s.data
    obtain ⟨n1, n2, n3, n4⟩ := escapedForm5_noRaw h5
    obtain ⟨m1, m2⟩ := escapedForm3_noRaw h3
    exact ⟨h5, n1, n2, n3, n4, h3, m1, m2⟩
  · intro r timeStr tid htid hne
    unfold App.metadataHtml
    rw [htid]
    simp only [if_neg hne]
    exact List.IsInfix.trans (strInfix_mid _ _ _) (strInfix_mid _ _ _)

/-- C1, witness: the amended statement instantiated on concrete inputs,
with both hypotheses of the trace id conjunct discharged. -/
theorem c1_escaping_amended_witness :
    EscapedForm5 (App.escapeHtml "a&b<c>").data
    ∧ List.IsInfix (jsSubstringTo "<script>alert(1)</script>" 8).data
        (App.metadataHtml cexResult "12:00:00").data :=
  ⟨(c1_escaping_amended.1 "a&b<c>").1,
   c1_escaping_amended.2.2.2 cexResult "12:00:00"
     "<script>alert(1)</script>" rfl (by decide)⟩

/-- C2 (confirmed): single-flight sending.  An invocation with a
non-empty trimmed input and a clear pending flag issues the one network
call and raises the flag; any invocation while the flag is set is a
complete no-op; every resolution path clears the flag; and under the
event semantics the number of in-flight calls always matches the flag,
hence never exceeds one. -/
theorem c2_single_flight :
    (∀ st : ChatState,
      jsTrim st.inputValue ≠ "" → st.isWaitingForResponse = false →
      (Chat.sendMessageStart st).2 = true
      ∧ (Chat.sendMessageStart st).1.isWaitingForResponse = true)
    ∧ (∀ st : ChatState, st.isWaitingForResponse = true →
        Chat.sendMessageStart st = (st, false))
    ∧ (∀ (o : Chat.SendOutcome) (i : String) (st : ChatState),
        (Chat.sendMessageResolve o i st).isWaitingForResponse = false)
    ∧ (∀ (s : ChatState × Nat) (op : Chat.SessOp),
        Chat.ChatInv s → Chat.ChatInv (Chat.chatStep s op))
    ∧ (∀ s : ChatState × Nat, Chat.ChatInv s → s.2 ≤ 1) := by
  refine ⟨?_, ?_, ?_, ?_, ?_⟩
  · intro st h1 h2
    obtain ⟨a1, a2, _⟩ := sendMessageStart_accept st h1 h2
    exact ⟨a1, a2⟩
  · intro st h
    exact sendMessageStart_guard st (Or.inr h)
  · intro o i st
    exact sendMessageResolve_flag o i st
  · intro s op h
    exact chatInv_step s op h
  · intro s h
    unfold Chat.ChatInv at h
    rw [h]
    cases s.1.isWaitingForResponse <;> simp

/-- C2, witness: the single-flight statement instantiated at concrete
states, each hypothesis discharged. -/
theorem c2_single_flight_witness :
    ((Chat.sendMessageStart stReady).2 = true
     ∧ (Chat.sendMessageStart stReady).1.isWaitingForResponse = true)
    ∧ Chat.sendMessageStart stTitled = (stTitled, false)
    ∧ (Chat.sendMessageResolve (Chat.SendOutcome.err (some "LLM timeout"))
        "m9" stTitled).isWaitingForResponse = false
    ∧ Chat.ChatInv (Chat.chatStep (stReady, 0) Chat.SessOp.send)
    ∧ (stReady, (0 : Nat)).2 ≤ 1 :=
  ⟨c2_single_flight.1 stReady (by decide) (by decide),
   c2_single_flight.2.1 stTitled rfl,
   c2_single_flight.2.2.1 _ "m9" stTitled,
   c2_single_flight.2.2.2.1 (stReady, 0) Chat.SessOp.send
     (by unfold Chat.ChatInv; decide),
   c2_single_flight.2.2.2.2 (stReady, 0) (by unfold Chat.ChatInv; decide)⟩

/-- C3 (confirmed): the message registry invariant.  appendAssistantMessage
performs the DOM insertion and the registry write in the same step; for a
fresh generated id the registry gains exactly one entry, retrievable by
that id; the send success path goes through exactly this write; no session
operation ever removes a present key; and appendErrorMessage leaves the
registry untouched. -/
theorem c3_registry_invariant :
    (∀ (content : String) (md : ChatMetadata) (ts : Option String)
        (mid : String) (st : ChatState),
      (Chat.appendAssistantMessage content md ts mid st).transcript
        = st.transcript ++ [TranscriptItem.assistant mid content md ts]
      ∧ (Chat.appendAssistantMessage content md ts mid st).registry
        = registrySet st.registry mid { content := content, metadata := md })
    ∧ (∀ (content : String) (md : ChatMetadata) (ts : Option String)
        (mid : String) (st : ChatState),
        List.lookup mid st.registry = none →
        (Chat.appendAssistantMessage content md ts mid st).registry
          = st.registry ++ [(mid, { content := content, metadata := md })]
        ∧ List.lookup mid
            (Chat.appendAssistantMessage content md ts mid st).registry
          = some { content := content, metadata := md }
        ∧ countKey mid
            (Chat.appendAssistantMessage content md ts mid st).registry = 1)
    ∧ (∀ (am : String) (md : ChatMetadata) (i : String) (st : ChatState),
        (Chat.sendMessageResolve (Chat.SendOutcome.ok am md) i st).registry
          = registrySet st.registry i { content := am, metadata := md })
    ∧ (∀ (op : Chat.SessOp) (st : ChatState) (k : String),
        (List.lookup k st.registry).isSome = true →
        (List.lookup k (Chat.applySessOp op st).registry).isSome = true)
    ∧ (∀ (e : String) (st : ChatState),
        (Chat.appendErrorMessage e st).registry = st.registry) := by
  refine ⟨?_, ?_, ?_, ?_, ?_⟩
  · intro content md ts mid st
    exact ⟨rfl, rfl⟩
  · intro content md ts mid st h
    have hreg : (Chat.appendAssistantMessage content md ts mid st).registry
        = st.registry ++ [(mid, { content := content, metadata := md })] := by
      show registrySet st.registry mid _ = _
      unfold registrySet
      rw [h]
      simp
    refine ⟨hreg, ?_, ?_⟩
    · rw [hreg]
      exact lookup_append_fresh mid _ st.registry h
    · rw [hreg]
      exact countKey_append_fresh mid st.registry _ h
  · intro am md i st
    rfl
  · intro op st k h
    exact applySessOp_registry_mono op st k h
  · intro e st
    rfl

/-- C3, witness: the registry invariant instantiated at a concrete fresh
id on the startup state and a concrete present key under a session
operation, hypotheses discharged. -/
theorem c3_registry_invariant_witness :
    (Chat.appendAssistantMessage "ans" emptyMetadata none "m1" stBase).registry
      = stBase.registry ++ [("m1", { content := "ans", metadata := emptyMetadata })]
    ∧ (List.lookup "m1"
        (Chat.applySessOp (Chat.SessOp.typeInput "x") stWithReg).registry).isSome
      = true :=
  ⟨(c3_registry_invariant.2.1 "ans" emptyMetadata none "m1" stBase (by decide)).1,
   c3_registry_invariant.2.2.2.1 (Chat.SessOp.typeInput "x") stWithReg "m1"
     (by decide)⟩

/-- C4 (code bug): at a state whose conversation already carries the
displayed title of the first reply, a second successful send overwrites
the title with the new reply text.  The code sets the title
unconditionally on every success although its own comment announces an
update only for the first message, so the claim matches the documented
intent and the code diverges from it. -/
theorem c4_title_overwrite_bug :
    stTitled.titleH2 = "First answer"
    ∧ (Chat.sendMessageResolve
        (Chat.SendOutcome.ok "Second answer" emptyMetadata) "m2"
        stTitled).titleH2 = "Second answer"
    ∧ ("Second answer" : String) ≠ "First answer" := by
  refine ⟨rfl, ?_, by decide⟩
  show jsSubstringTo "Second answer" 50 = "Second answer"
  decide

/-- C5, counterexample: loading a conversation whose service response is
an error body (no messages array, as the unchecked non-200 json) does
not leave the session unchanged: the active id switches to the requested
one and the rendered transcript is cleared before the failure is
reported.  This refutes the claim that every load failure leaves the
active conversation and the transcript unchanged. -/
theorem c5_load_error_mutates_cex :
    stLoaded.currentConversationId = some "a"
    ∧ stLoaded.transcript ≠ []
    ∧ (Chat.loadConversation "b" (Chat.LoadOutcome.body none none) []
        stLoaded).currentConversationId = some "b"
    ∧ (Chat.loadConversation "b" (Chat.LoadOutcome.body none none) []
        stLoaded).transcript = []
    ∧ ("b" : String) ≠ "a" := by
  refine ⟨rfl, by decide, rfl, rfl, by decide⟩

/-- C5 (corrected): only the rejection path of loadConversation is
fail-safe.  A rejected fetch (or unparseable body) leaves every modeled
surface unchanged and only reports the error; but because response.ok is
never checked, a received error body switches the active id to the
requested conversation, renders the title placeholder, clears the
transcript and then reports the error; and on any received body,
well-formed or not, the active id becomes the requested one. -/
theorem c5_load_failure_amended :
    (∀ (convId : String) (ids : List String) (st : ChatState),
      Chat.loadConversation convId Chat.LoadOutcome.reject ids st
        = { st with alerts := st.alerts ++ ["Error loading conversation"] })
    ∧ (∀ (convId : String) (ids : List String) (st : ChatState)
        (title : Option String),
        Chat.loadConversation convId (Chat.LoadOutcome.body title none) ids st
          = { st with currentConversationId := some convId,
                      welcomeVisible := false,
                      messagesVisible := true,
                      titleH2 := title.getD "undefined",
                      transcript := [],
                      alerts := st.alerts ++ ["Error loading conversation"] })
    ∧ (∀ (convId : String) (ids : List String) (st : ChatState)
        (title : Option String) (ms : List Chat.MsgRec),
        (Chat.loadConversation convId (Chat.LoadOutcome.body title (some ms))
          ids st).currentConversationId = some convId) := by
  refine ⟨?_, ?_, ?_⟩
  · intro convId ids st
    rfl
  · intro convId ids st title
    rfl
  · intro convId ids st title ms
    show (Chat.renderMessages ms ids _).currentConversationId = some convId
    rw [renderMessages_cid]

/-- C6, counterexample: deleting the active conversation does not always
end with exactly one freshly created active conversation.  When the
unchecked createNewChat response is a non-200 error body, its missing
conversation id field, the JS undefined, becomes the active id: zero
active conversations afterwards.  When the createNewChat fetch rejects,
the deleted conversation's id stays active, which is not a freshly
created conversation either. -/
theorem c6_delete_zero_active_cex :
    stBase.currentConversationId = some "c1"
    ∧ (Chat.deleteConversation "c1" true true
        (Chat.CreateOutcome.body none) stBase).currentConversationId = none
    ∧ (Chat.deleteConversation "c1" true true
        Chat.CreateOutcome.reject stBase).currentConversationId
      = some "c1" := by
  refine ⟨rfl, ?_, ?_⟩ <;> decide

/-- C6 (corrected): deletion outcome under every createNewChat result.
A confirmed delete of the active conversation always falls through to
createNewChat; when its call returns a body carrying a conversation id,
exactly that freshly created conversation is active afterwards; but when
the body carries none (the unchecked non-200 error body) the active id
becomes the undefined none, zero active conversations, and when the call
rejects the deleted conversation's id stays active.  Deleting any other
conversation changes nothing but the sidebar refresh counter, leaving
the active id, the transcript and the registry as they were. -/
theorem c6_delete_active_amended :
    ∀ (convId : String) (co : Chat.CreateOutcome) (st : ChatState),
      (st.currentConversationId = some convId →
        Chat.deleteConversation convId true true co st
          = Chat.createNewChat co st
        ∧ (∀ newId : String, co = Chat.CreateOutcome.body (some newId) →
            (Chat.deleteConversation convId true true co
              st).currentConversationId = some newId)
        ∧ (co = Chat.CreateOutcome.body none →
            (Chat.deleteConversation convId true true co
              st).currentConversationId = none)
        ∧ (co = Chat.CreateOutcome.reject →
            (Chat.deleteConversation convId true true co
              st).currentConversationId = some convId))
      ∧ (st.currentConversationId ≠ some convId →
        Chat.deleteConversation convId true true co st
          = { st with sidebarRefreshes := st.sidebarRefreshes + 1 }) := by
  intro convId co st
  constructor
  · intro h
    have he : Chat.deleteConversation convId true true co st
        = Chat.createNewChat co st := by
      unfold Chat.deleteConversation
      simp only [Bool.not_true, Bool.false_eq_true, if_false, if_pos h]
    refine ⟨he, ?_, ?_, ?_⟩
    · intro newId hco
      rw [he, hco]; rfl
    · intro hco
      rw [he, hco]; rfl
    · intro hco
      rw [he, hco]
      exact h
  · intro h
    unfold Chat.deleteConversation
    simp only [Bool.not_true, Bool.false_eq_true, if_false, if_neg h]

/-- C6, witness: the deletion statement instantiated on the startup state
for all three active-branch outcomes and on a state with another active
conversation for the frame branch, every hypothesis discharged. -/
theorem c6_delete_active_amended_witness :
    (Chat.deleteConversation "c1" true true
        (Chat.CreateOutcome.body (some "c2")) stBase).currentConversationId
      = some "c2"
    ∧ (Chat.deleteConversation "c1" true true
        (Chat.CreateOutcome.body none) stBase).currentConversationId = none
    ∧ (Chat.deleteConversation "c1" true true
        Chat.CreateOutcome.reject stBase).currentConversationId = some "c1"
    ∧ Chat.deleteConversation "c1" true true
        (Chat.CreateOutcome.body (some "c2")) stOther
      = { stOther with sidebarRefreshes := stOther.sidebarRefreshes + 1 } :=
  ⟨((c6_delete_active_amended "c1" (Chat.CreateOutcome.body (some "c2"))
      stBase).1 (by decide)).2.1 "c2" rfl,
   ((c6_delete_active_amended "c1" (Chat.CreateOutcome.body none)
      stBase).1 (by decide)).2.2.1 rfl,
   ((c6_delete_active_amended "c1" Chat.CreateOutcome.reject
      stBase).1 (by decide)).2.2.2 rfl,
   (c6_delete_active_amended "c1" (Chat.CreateOutcome.body (some "c2"))
      stOther).2 (by decide)⟩

/-- C7, counterexample: at a whitespace-only input, sendMessage is a
complete silent no-op: the state is returned unchanged, with no network
call, but also with no alert and no transcript entry, so no local
validation message is surfaced, refuting that part of the claim. -/
theorem c7_silent_empty_cex :
    Chat.sendMessageStart stWhitespace = (stWhitespace, false)
    ∧ stWhitespace.alerts = []
    ∧ stWhitespace.transcript = [] := by
  refine ⟨?_, rfl, rfl⟩
  exact sendMessageStart_guard stWhitespace (Or.inl (by decide))

/-- C7 (corrected): on an empty or whitespace-only trimmed input the chat
sendMessage performs no network call and leaves the whole session state
unchanged, but silently, surfacing no validation message; the validation
message of the claim exists only on the query page, whose submitQuery
renders it into the results area without a network call. -/
theorem c7_empty_input_amended :
    (∀ st : ChatState, jsTrim st.inputValue = "" →
      Chat.sendMessageStart st = (st, false))
    ∧ (∀ (o : App.QueryOutcome) (timeStr : String)
        (st : App.QueryPageState), jsTrim st.queryInput = "" →
        App.submitQuery o timeStr st
          = ({ st with resultsHtml :=
                App.showErrorHtml "Please enter a threat intelligence query" },
             false)) := by
  constructor
  · intro st h
    exact sendMessageStart_guard st (Or.inl h)
  · intro o timeStr st h
    unfold App.submitQuery
    rw [if_pos h]

/-- C7, witness: the empty-input statement instantiated at the
whitespace fixtures of both pages. -/
theorem c7_empty_input_amended_witness :
    Chat.sendMessageStart stWhitespace = (stWhitespace, false)
    ∧ App.submitQuery (App.QueryOutcome.err none) "t" qpBase
      = ({ qpBase with resultsHtml :=
            App.showErrorHtml "Please enter a threat intelligence query" },
         false) :=
  ⟨c7_empty_input_amended.1 stWhitespace (by decide),
   c7_empty_input_amended.2 (App.QueryOutcome.err none) "t" qpBase (by decide)⟩

/-- C8, counterexample: quickFeedback on an id absent from the registry
returns with no network call but also with no alert: the state is
entirely unchanged and no body is posted, refuting the claim that every
feedback operation fails with a user-visible alert. -/
theorem c8_quick_feedback_silent_cex :
    Chat.quickFeedback "missing-id" "positive" stBase = (stBase, none)
    ∧ stBase.alerts = [] := by
  exact ⟨by decide, rfl⟩

/-- C8 (corrected): for an id with no registry entry, both exports and
the modal feedback submission fail locally with a user-visible alert and
no network call, exactly as claimed; quickFeedback also fails locally
with no network call, but silently, raising no alert. -/
theorem c8_missing_registry_amended :
    ∀ (mid nowStr ftype : String) (st : ChatState),
      List.lookup mid st.registry = none →
      (∀ o : Chat.NetOutcome,
        Chat.exportMessagePDF mid nowStr o st
          = ({ st with alerts := st.alerts
              ++ ["Error exporting PDF: Message data not found"] }, false))
      ∧ (∀ o : Chat.NetOutcome,
        Chat.exportMessageCSV mid nowStr o st
          = ({ st with alerts := st.alerts
              ++ ["Error exporting CSV: Message data not found"] }, false))
      ∧ (∀ (r : Nat) (rel acc com : String) (o : Chat.NetOutcome),
        Chat.submitFeedback (some mid) r rel acc com o st
          = ({ st with alerts := st.alerts ++ ["Message data not found"] },
             false))
      ∧ Chat.quickFeedback mid ftype st = (st, none) := by
  intro mid nowStr ftype st h
  refine ⟨?_, ?_, ?_, ?_⟩
  · intro o
    unfold Chat.exportMessagePDF
    rw [h]
  · intro o
    unfold Chat.exportMessageCSV
    rw [h]
  · intro r rel acc com o
    simp only [Chat.submitFeedback, h]
  · unfold Chat.quickFeedback
    rw [h]

/-- C8, witness: the missing-entry statement instantiated at a concrete
absent id on the startup state. -/
theorem c8_missing_registry_amended_witness :
    Chat.exportMessagePDF "missing-id" "170" Chat.NetOutcome.ok stBase
      = ({ stBase with alerts := stBase.alerts
          ++ ["Error exporting PDF: Message data not found"] }, false)
    ∧ Chat.quickFeedback "missing-id" "negative" stBase = (stBase, none) :=
  ⟨(c8_missing_registry_amended "missing-id" "170" "negative" stBase
      (by decide)).1 Chat.NetOutcome.ok,
   (c8_missing_registry_amended "missing-id" "170" "negative" stBase
      (by decide)).2.2.2⟩

/-- C9 (confirmed): the failure frame of sendMessage.  On a non-200 body
or a rejection, the resolution removes the first typing indicator and
appends exactly one error entry with the proper text; the registry, the
title, the active id, the alerts and the downloads are untouched; and
removing the first typing indicator never touches a non-typing item, so
the optimistically appended user message stays in place, not rolled
back. -/
theorem c9_failure_frame :
    ∀ (st : ChatState) (e : Option String) (m i : String),
      (Chat.sendMessageResolve (Chat.SendOutcome.err e) i st).transcript
        = removeFirstTyping st.transcript
          ++ [TranscriptItem.errorMsg (jsOrString e "Unknown error")]
      ∧ (Chat.sendMessageResolve (Chat.SendOutcome.reject m) i st).transcript
        = removeFirstTyping st.transcript
          ++ [TranscriptItem.errorMsg ("Connection error: " ++ m)]
      ∧ (Chat.sendMessageResolve (Chat.SendOutcome.err e) i st).registry
        = st.registry
      ∧ (Chat.sendMessageResolve (Chat.SendOutcome.reject m) i st).registry
        = st.registry
      ∧ (Chat.sendMessageResolve (Chat.SendOutcome.err e) i st).titleH2
        = st.titleH2
      ∧ (Chat.sendMessageResolve (Chat.SendOutcome.reject m) i st).titleH2
        = st.titleH2
      ∧ (Chat.sendMessageResolve (Chat.SendOutcome.err e) i
          st).currentConversationId = st.currentConversationId
      ∧ (Chat.sendMessageResolve (Chat.SendOutcome.reject m) i
          st).currentConversationId = st.currentConversationId
      ∧ (Chat.sendMessageResolve (Chat.SendOutcome.err e) i st).alerts
        = st.alerts
      ∧ (Chat.sendMessageResolve (Chat.SendOutcome.reject m) i st).alerts
        = st.alerts
      ∧ (Chat.sendMessageResolve (Chat.SendOutcome.err e) i st).downloads
        = st.downloads
      ∧ (Chat.sendMessageResolve (Chat.SendOutcome.reject m) i st).downloads
        = st.downloads
      ∧ (∀ l : List TranscriptItem,
          (removeFirstTyping l).filter (fun it => !(isTyping it))
            = l.filter (fun it => !(isTyping it))) := by
  intro st e m i
  refine ⟨rfl, rfl, rfl, rfl, rfl, rfl, rfl, rfl, rfl, rfl, rfl, rfl, ?_⟩
  intro l
  exact removeFirstTyping_filter l

/-- C10 (confirmed): the evidence slice of appendAssistantMessage.  For a
non-empty evidence array the rendered item list is the index-mapped first
three items, so its length is the minimum of three and the full count and
never exceeds three, while the badge of the evidence section always
displays the full count; hence for more than three items the badge number
strictly exceeds the number of items actually rendered. -/
theorem c10_evidence_slice :
    ∀ evidence : List EvidenceItem, 0 < evidence.length →
      (Chat.evidenceItemsChat evidence).length = min 3 evidence.length
      ∧ (Chat.evidenceItemsChat evidence).length ≤ 3
      ∧ Chat.evidenceSectionChat evidence
        = "<div class=\"message-evidence\"><div class=\"evidence-header\"><span>📚 Evidence Sources</span><span class=\"evidence-count\">"
          ++ toString evidence.length
          ++ "</span></div><div class=\"evidence-list\">"
          ++ String.join (Chat.evidenceItemsChat evidence)
          ++ "</div></div>"
      ∧ (3 < evidence.length →
          (Chat.evidenceItemsChat evidence).length < evidence.length) := by
  intro evidence h
  have hlen : (Chat.evidenceItemsChat evidence).length = min 3 evidence.length := by
    unfold Chat.evidenceItemsChat
    rw [mapIdxFrom_length]
    exact List.length_take 3 evidence
  refine ⟨hlen, ?_, ?_, ?_⟩
  · rw [hlen]; exact min_le_left 3 evidence.length
  · unfold Chat.evidenceSectionChat
    rw [if_pos h]
  · intro h3
    rw [hlen]
    omega

/-- C10, witness: the slicing statement instantiated at the five-item
evidence fixture, hypotheses discharged; the badge count five strictly
exceeds the three rendered items. -/
theorem c10_evidence_slice_witness :
    (Chat.evidenceItemsChat evFive).length = min 3 evFive.length
    ∧ (Chat.evidenceItemsChat evFive).length < evFive.length :=
  ⟨(c10_evidence_slice evFive (by decide)).1,
   (c10_evidence_slice evFive (by decide)).2.2.2 (by decide)⟩

end ThreatAI
